import Mathlib

/-!
Shallow embedding of the adsdb driver (adsdb.py, a Python 3 DB-API adapter
for the Advantage Database Server client library), covering the value codec
(`mk_valueof`/`mk_assign`), the type-category sets (`DBAPISet`), the column
descriptor builder (`Cursor.columns`), the execute/fetch paths
(`Cursor.executemany`, `Cursor.rows`, `Cursor.fetch*`) and the date/time
typecast helpers.  Python-level semantics (truthiness of ctypes values,
negative string indexing, `struct.pack`/`unpack` byte layouts, Python 3 true
division, ctypes field conversions) are modelled explicitly where the source
relies on them.
-/

namespace Adsdb

/-- Error kinds raised by the modelled code paths.  DB-API classes from the
source (lines 175-211) plus the Python built-in exceptions that the Python 3
code actually raises. -/
inductive PyError
  | interfaceError
  | operationalError
  | internalError
  | programmingError
  | integrityError
  | dataError
  | notSupportedError
  | typeError
  | indexError
  | keyError
  | valueError
  | nameError
  | structError
  | unicodeDecodeError
  | overflowError
deriving DecidableEq, Repr

/-- Host (Python) values produced and consumed by the codec.  Doubles are
represented by their IEEE-754 binary64 bit pattern (a natural below 2^64),
which is exactly what `struct.pack('d', ...)` lays down byte for byte.
`binary` models the source's `Binary` class, a subclass of `str` (line 660). -/
inductive PyValue
  | none
  | int (i : Int)
  | float (bits : Nat)
  | str (s : String)
  | bytes (b : List Nat)
  | binary (s : String)
deriving DecidableEq, Repr

/- Native type-tag constants, source lines 26-42. -/
def A_INVALID_TYPE : Int := 0
def A_BINARY : Int := 1
def A_STRING : Int := 2
def A_DOUBLE : Int := 3
def A_VAL64 : Int := 4
def A_UVAL64 : Int := 5
def A_VAL32 : Int := 6
def A_UVAL32 : Int := 7
def A_VAL16 : Int := 8
def A_UVAL16 : Int := 9
def A_VAL8 : Int := 10
def A_UVAL8 : Int := 11
def A_NCHAR : Int := 12
def A_DECIMAL : Int := 13
def A_DATE : Int := 14
def A_TIME : Int := 15
def A_TIMESTAMP : Int := 16

/- Parameter direction constants, source lines 70-73. -/
def DD_INVALID : Int := 0
def DD_INPUT : Int := 1
def DD_OUTPUT : Int := 2
def DD_INPUT_OUTPUT : Int := 3

/-- The per-tag struct format table, source line 214:
`format = 'xxxdqQiIhHbBxxxx'`. -/
def format : List Char :=
  ['x', 'x', 'x', 'd', 'q', 'Q', 'i', 'I', 'h', 'H', 'b', 'B', 'x', 'x', 'x', 'x']

/-- Python string indexing `format[t]`: indices 0..15 read directly,
-16..-1 wrap around (Python negative indexing), anything else raises
IndexError (modelled as `none`). -/
def formatChar (t : Int) : Option Char :=
  if 0 ≤ t ∧ t < 16 then format.get? t.toNat
  else if -16 ≤ t ∧ t < 0 then format.get? (t + 16).toNat
  else none

/-- Byte width and signedness of the integer struct format characters
(native sizes on the supported platforms: q/Q 8, i/I 4, h/H 2, b/B 1). -/
def intWidth : Char → Option (Nat × Bool)
  | 'q' => some (8, true)
  | 'Q' => some (8, false)
  | 'i' => some (4, true)
  | 'I' => some (4, false)
  | 'h' => some (2, true)
  | 'H' => some (2, false)
  | 'b' => some (1, true)
  | 'B' => some (1, false)
  | _ => none

/-- `struct.calcsize` of one format character ('d' is 8 bytes, 'x' one pad
byte, integer characters their width). -/
def calcsizeChar (c : Char) : Nat :=
  if c = 'd' then 8
  else match intWidth c with
    | some (w, _) => w
    | none => 1

/-- Little-endian byte decomposition: `w` bytes of `n`. -/
def toLE : Nat → Nat → List Nat
  | 0, _ => []
  | w + 1, n => n % 256 :: toLE w (n / 256)

/-- Little-endian byte recomposition. -/
def fromLE : List Nat → Nat
  | [] => 0
  | b :: bs => b + 256 * fromLE bs

/-- Range check performed by `struct.pack` for an integer format of byte
width `w`, signedness `s`. -/
def packOk (w : Nat) (s : Bool) (v : Int) : Bool :=
  if s then decide (-(2 ^ (8 * w - 1)) ≤ v) && decide (v < 2 ^ (8 * w - 1))
  else decide (0 ≤ v) && decide (v < 2 ^ (8 * w))

/-- `struct.pack` of one integer value: range check, then the two's
complement little-endian bytes (`v mod 2^(8w)`). -/
def packIntBytes (w : Nat) (s : Bool) (v : Int) : Except PyError (List Nat) :=
  if packOk w s v then .ok (toLE w (v.emod (2 ^ (8 * w))).toNat)
  else .error .structError

/-- Value reconstructed by `struct.unpack` from the little-endian unsigned
reading `n` of the bytes: signed formats fold the top half down. -/
def unpackIntVal (w : Nat) (s : Bool) (n : Nat) : Int :=
  if s ∧ 2 ^ (8 * w - 1) ≤ n then (n : Int) - 2 ^ (8 * w) else (n : Int)

/-- Round-half-to-even of `q + r / (2*half)` (used for int → double
conversion beyond 53 bits). -/
def roundHalfEven (q r half : Nat) : Nat :=
  if r < half then q else if half < r then q + 1 else if q % 2 = 0 then q else q + 1

/-- IEEE-754 binary64 bit pattern of the double nearest to the integer `i`
(ties to even); models the conversion Python performs in
`struct.pack('d', i)` for an int argument.  OverflowError when the value
exceeds the double range. -/
def doubleBitsOfInt (i : Int) : Except PyError Nat :=
  if i = 0 then .ok 0
  else
    let s : Nat := if i < 0 then 1 else 0
    let m : Nat := i.natAbs
    let e : Nat := Nat.log2 m
    if e ≤ 52 then
      .ok (s * 2 ^ 63 + (e + 1023) * 2 ^ 52 + (m * 2 ^ (52 - e) - 2 ^ 52))
    else
      let q : Nat := m / 2 ^ (e - 52)
      let r : Nat := m % 2 ^ (e - 52)
      let mant : Nat := roundHalfEven q r (2 ^ (e - 53))
      let e2 : Nat := if mant = 2 ^ 53 then e + 1 else e
      let mant2 : Nat := if mant = 2 ^ 53 then 2 ^ 52 else mant
      if 1023 < e2 then .error .overflowError
      else .ok (s * 2 ^ 63 + (e2 + 1023) * 2 ^ 52 + (mant2 - 2 ^ 52))

/-- `struct.pack(fmt, value)` for one format character.  Integer formats
require an int (`struct.error` otherwise, including for floats); 'd'
accepts a float (laid down bit for bit) or an int (converted to the nearest
double).  Bit patterns ≥ 2^64 do not correspond to any Python float; `toLE`
wraps them, and all theorems below stay inside 2^64. -/
def pyPack (c : Char) (v : PyValue) : Except PyError (List Nat) :=
  if c = 'd' then
    match v with
    | .float bits => .ok (toLE 8 bits)
    | .int i => (doubleBitsOfInt i).map (toLE 8)
    | _ => .error .structError
  else
    match intWidth c, v with
    | some (w, s), .int i => packIntBytes w s i
    | _, _ => .error .structError

/-- `struct.unpack(fmt, bs)[0]` for one format character.  Wrong length is
`struct.error`; 'x' produces the empty tuple, so the `[0]` subscript at
source line 243 raises IndexError. -/
def pyUnpack (c : Char) (bs : List Nat) : Except PyError PyValue :=
  if bs.length = calcsizeChar c then
    if c = 'x' then .error .indexError
    else if c = 'd' then .ok (.float (fromLE bs))
    else
      match intWidth c with
      | some (w, s) => .ok (.int (unpackIntVal w s (fromLE bs)))
      | none => .error .structError
  else .error .structError

/-- One native `a_ads_data_value` record as seen by `valueof` (source lines
75-82): the type tag, the bytes the buffer pointer gives access to (ctypes
`POINTER(c_char)` slices read memory at any offset, hence a total function),
the recorded buffer size and length, and the dereferenced null flag. -/
structure DataValue where
  type : Int
  buffer : Nat → Nat
  buffer_size : Nat
  length : Nat
  is_null : Bool

/-- ctypes pointer slice `buffer[:n]`. -/
def pySlice (f : Nat → Nat) (n : Nat) : List Nat :=
  (List.range n).map f

/-- UTF-16 code units from bytes with the given endianness; `none` on odd
length (UnicodeDecodeError). -/
def utf16Units (le : Bool) : List Nat → Option (List Nat)
  | [] => some []
  | [_] => none
  | b0 :: b1 :: rest =>
    (utf16Units le rest).map
      (fun us => (if le then b0 + 256 * b1 else b1 + 256 * b0) :: us)

/-- Combine UTF-16 surrogate pairs into code points; `none` on a lone or
misordered surrogate. -/
def combineSurrogates : List Nat → Option (List Nat)
  | [] => some []
  | u :: rest =>
    if u < 0xD800 ∨ 0xE000 ≤ u then (combineSurrogates rest).map (u :: ·)
    else if u < 0xDC00 then
      match rest with
      | v :: rest2 =>
        if 0xDC00 ≤ v ∧ v < 0xE000 then
          (combineSurrogates rest2).map
            ((0x10000 + (u - 0xD800) * 0x400 + (v - 0xDC00)) :: ·)
        else none
      | [] => none
    else none

/-- Python `str(bs, 'utf-16')`: honour a BOM, default to little endian
without one (the supported platforms are little-endian), combine surrogate
pairs; decoding failures raise UnicodeDecodeError. -/
def pyStrFromUtf16 (b : List Nat) : Except PyError PyValue :=
  let p : Bool × List Nat :=
    match b with
    | 0xFF :: 0xFE :: rest => (true, rest)
    | 0xFE :: 0xFF :: rest => (false, rest)
    | _ => (true, b)
  match utf16Units p.1 p.2 with
  | none => .error .unicodeDecodeError
  | some us =>
    match combineSurrogates us with
    | none => .error .unicodeDecodeError
    | some cps => .ok (.str (String.mk (cps.map Char.ofNat)))

/-- Source `ads_typecast_date` (lines 691-698) applied to a byte slice, as
`valueof` does.  Empty bytes are falsy, so `if not s` returns None.  For any
non-empty input the next line runs `isinstance(s, datetime.date)`; after the
module's `from datetime import datetime` (line 18) the name `datetime` is
the datetime class, whose `date` attribute is a method descriptor and not a
type, so `isinstance` raises TypeError before any parsing. -/
def ads_typecast_date_b (b : List Nat) : Except PyError PyValue :=
  if b = [] then .ok .none else .error .typeError

/-- Source `ads_typecast_time` (lines 700-720) applied to a byte slice; the
same shadowed-import TypeError as `ads_typecast_date_b` fires on
`isinstance(s, datetime.time)` for every non-empty input. -/
def ads_typecast_time_b (b : List Nat) : Except PyError PyValue :=
  if b = [] then .ok .none else .error .typeError

/-- Source `ads_typecast_time` called on a string (the form the spec's TIME
examples use).  The empty string is falsy and yields None; every non-empty
string reaches `isinstance(s, datetime.time)` where `datetime` is the
datetime class (shadowed module import, line 18), `datetime.time` is a
method descriptor, and `isinstance` raises TypeError. -/
def ads_typecast_time (s : String) : Except PyError PyValue :=
  if s = "" then .ok .none else .error .typeError

/-- Source `ads_typecast_timestamp` (lines 663-665): its first statement is
`return s`, so the input comes back unchanged. -/
def ads_typecast_timestamp_b (b : List Nat) : Except PyError PyValue :=
  .ok (.bytes b)

/-- The decoder `valueof` produced by `mk_valueof` (source lines 216-244) at
its only instantiation (line 391): `raw = (A_BINARY, A_STRING)` and
`char_set = 'utf-16'`.  The elif chain is mirrored branch for branch; the
`A_STRING` arm is unreachable because `A_STRING` is already in `raw`; the
`A_NCHAR` arm's `isinstance(data, str)` is False (a `DataValue` struct is
not a str) so it decodes the bytes as UTF-16; `Decimal(bytes)` raises
TypeError in Python 3; the final arm looks the tag up in `format` and
unpacks. -/
def valueof (data : DataValue) : Except PyError PyValue :=
  if data.is_null then .ok .none
  else if data.type = A_BINARY ∨ data.type = A_STRING then
    .ok (.bytes (pySlice data.buffer data.length))
  else if data.type = A_STRING then
    pyStrFromUtf16 (pySlice data.buffer data.length)
  else if data.type = A_NCHAR then
    pyStrFromUtf16 (pySlice data.buffer data.length)
  else if data.type = A_DECIMAL then
    .error .typeError
  else if data.type = A_DATE then
    ads_typecast_date_b (pySlice data.buffer data.length)
  else if data.type = A_TIME then
    ads_typecast_time_b (pySlice data.buffer data.length)
  else if data.type = A_TIMESTAMP then
    ads_typecast_timestamp_b (pySlice data.buffer data.length)
  else
    match formatChar data.type with
    | some c => pyUnpack c (pySlice data.buffer (calcsizeChar c))
    | none => .error .indexError

/-- Result of `assign` on a bind parameter's embedded data value (source
lines 280-282): the (possibly inferred) type tag, the null flag, the bytes
of `create_string_buffer` (packed bytes plus the trailing NUL the buffer
adds), and the recorded buffer size and length. -/
structure AssignResult where
  vtype : Int
  is_null : Bool
  buffer : List Nat
  buffer_size : Nat
  length : Nat
deriving DecidableEq, Repr

/-- Type inference for an unset parameter tag (source lines 253-261):
`isinstance(value, int)` → A_VAL32, float → A_DOUBLE, `Binary` → A_BINARY,
anything else → A_STRING.  `Binary` is a str subclass, but the int/float
tests come first, so the order below matches the source. -/
def inferType : PyValue → Int
  | .int _ => A_VAL32
  | .float _ => A_DOUBLE
  | .binary _ => A_BINARY
  | _ => A_STRING

/-- Python `isinstance(value, str)` over our value universe: `str` itself
and the `Binary` subclass of str. -/
def isPyStr : PyValue → Bool
  | .str _ => true
  | .binary _ => true
  | _ => false

/-- Which branch of the `fmt == 'x'` arm of `assign` runs (source lines
264-272): 1 = the `if isinstance(value, str)` branch, 2 = the
`elif isinstance(value, str)` branch (the UTF-16/NCHAR arm), 3 = the `else`
branch.  The two guards are the same test, read off the source verbatim. -/
def strPathBranch (value : PyValue) : Nat :=
  if isPyStr value then 1 else if isPyStr value then 2 else 3

/-- The encoder `assign` produced by `mk_assign` (source lines 247-283).
Null values set the flag and, for input parameters, substitute the int 0; an
unset tag is inferred; the tag indexes `format`; the 'x' (text) arm computes
sizes but always ends in `create_string_buffer(value)` with a str argument
(branch 1 keeps the str, branch 2 is unreachable because its guard repeats
branch 1's, branch 3 applies `str(value)`), which Python 3 rejects with
TypeError since only bytes are accepted; non-'x' formats pack the value and
record `calcsize(fmt)` as both buffer size and length. -/
def assign (direction : Int) (vtype0 : Int) (_buffer_size0 : Nat)
    (value0 : PyValue) : Except PyError AssignResult :=
  let is_null : Bool := decide (value0 = PyValue.none)
  let value := if is_null ∧ direction = DD_INPUT then PyValue.int 0 else value0
  let vtype := if vtype0 = A_INVALID_TYPE then inferType value else vtype0
  match formatChar vtype with
  | none => .error .indexError
  | some c =>
    if c = 'x' then .error .typeError
    else
      match pyPack c value with
      | .error e => .error e
      | .ok bs => .ok ⟨vtype, is_null, bs ++ [0], calcsizeChar c, calcsizeChar c⟩

/-- The data-value record a bound parameter carries after `assign`, in the
shape `valueof` reads it (source line 591 decodes exactly these records):
the buffer pointer gives the stored bytes, zeros beyond them. -/
def dataValueOfAssign (r : AssignResult) : DataValue :=
  { type := r.vtype
    buffer := fun i => r.buffer.getD i 0
    buffer_size := r.buffer_size
    length := r.length
    is_null := r.is_null }

/-- Encode a host value at the given preset tag through `assign`, then
decode the resulting typed buffer through `valueof` — the composition the
source itself performs across lines 558 and 591. -/
def roundtrip (tag : Int) (v : PyValue) : Except PyError PyValue :=
  match assign DD_INPUT tag 0 v with
  | .error e => .error e
  | .ok r => valueof (dataValueOfAssign r)

/- Native result-set type codes, source lines 44-68. -/
def DT_NOTYPE : Int := 0
def DT_DATE : Int := 384
def DT_TIME : Int := 388
def DT_TIMESTAMP : Int := 392
def DT_VARCHAR : Int := 448
def DT_FIXCHAR : Int := 452
def DT_LONGVARCHAR : Int := 456
def DT_STRING : Int := 460
def DT_DOUBLE : Int := 480
def DT_FLOAT : Int := 482
def DT_DECIMAL : Int := 484
def DT_INT : Int := 496
def DT_SMALLINT : Int := 500
def DT_BINARY : Int := 524
def DT_LONGBINARY : Int := 528
def DT_TINYINT : Int := 604
def DT_BIGINT : Int := 608
def DT_UNSINT : Int := 612
def DT_UNSSMALLINT : Int := 616
def DT_UNSBIGINT : Int := 620
def DT_BIT : Int := 624
def DT_NSTRING : Int := 628
def DT_NFIXCHAR : Int := 632
def DT_NVARCHAR : Int := 636
def DT_LONGNVARCHAR : Int := 640

/- The DBAPISet category values, source lines 131-147.  A `DBAPISet` is an
immutable set of native codes; `frozenset` equality is equality of the
member sets, modelled as `Finset Int`. -/
def STRING : Finset Int := {A_STRING, A_NCHAR}
def BINARY : Finset Int := {A_BINARY}
def NUMBER : Finset Int :=
  {A_DOUBLE, A_VAL64, A_UVAL64, A_VAL32, A_UVAL32, A_VAL16, A_UVAL16,
   A_VAL8, A_UVAL8, A_DECIMAL}
def DATE : Finset Int := {A_DATE}
def TIME : Finset Int := {A_TIME}
def TIMESTAMP : Finset Int := {A_TIMESTAMP}

/-- An operand of a Python `==` comparison involving categories: either a
raw native code (an int) or a `DBAPISet` category value. -/
inductive PyOperand
  | code (n : Int)
  | cat (s : Finset Int)
deriving DecidableEq

/-- `DBAPISet.__eq__` (source lines 121-125): against another `DBAPISet`,
`frozenset.__eq__` (member-set equality); against anything else,
`other in self` (membership). -/
def dbapiEq (a : Finset Int) : PyOperand → Bool
  | .code n => decide (n ∈ a)
  | .cat b => decide (a = b)

/-- Full Python `==` dispatch between our operands: a `DBAPISet` on the left
uses `DBAPISet.__eq__`; two ints compare as ints; an int on the left returns
NotImplemented from `int.__eq__`, so Python falls back to the reflected
`DBAPISet.__eq__` of the right operand. -/
def pyEq : PyOperand → PyOperand → Bool
  | .cat a, x => dbapiEq a x
  | .code m, .code n => decide (m = n)
  | .code m, .cat a => dbapiEq a (.code m)

/-- `ToPyType` (source lines 149-172): native result-set code → category;
a missing key raises KeyError (modelled as `none`). -/
def ToPyType (t : Int) : Option (Finset Int) :=
  if t = DT_DATE then some DATE
  else if t = DT_TIME then some TIME
  else if t = DT_TIMESTAMP then some TIMESTAMP
  else if t = DT_VARCHAR ∨ t = DT_FIXCHAR ∨ t = DT_LONGVARCHAR ∨ t = DT_STRING
       ∨ t = DT_LONGNVARCHAR ∨ t = DT_NSTRING ∨ t = DT_NFIXCHAR ∨ t = DT_NVARCHAR then
    some STRING
  else if t = DT_DOUBLE ∨ t = DT_FLOAT ∨ t = DT_DECIMAL ∨ t = DT_INT
       ∨ t = DT_SMALLINT ∨ t = DT_TINYINT ∨ t = DT_BIGINT ∨ t = DT_UNSINT
       ∨ t = DT_UNSSMALLINT ∨ t = DT_UNSBIGINT ∨ t = DT_BIT then
    some NUMBER
  else if t = DT_BINARY ∨ t = DT_LONGBINARY then some BINARY
  else none

/-- One native `a_ads_column_info` record (source lines 93-102), as filled
in by `ads_get_column_info`. -/
structure ColumnInfoRec where
  name : String
  ctype : Int
  native_type : Int
  precision : Int
  scale : Int
  max_size : Int
  nullable : Int

/-- The wide-character native types singled out at source line 538. -/
def wideNative (t : Int) : Bool :=
  decide (t = DT_NSTRING ∨ t = DT_NFIXCHAR ∨ t = DT_NVARCHAR ∨ t = DT_LONGNVARCHAR)

/-- A Python number: an int, or a float holding the exact ratio it denotes
(IEEE rounding is irrelevant here — only int-versus-float matters for the
ctypes field assignments below, and the ratios involved are exact). -/
inductive PyNum
  | int (i : Int)
  | float (num : Int) (den : Int)

/-- Python 3 true division on two ints: always a float (`20 / 2` is
`10.0`). -/
def pyTrueDiv (a b : Int) : PyNum := PyNum.float a b

/-- Assignment into a ctypes integer field (`c_short` precision, `c_int`
max_size): an int is stored, a float raises
`TypeError: 'float' object cannot be interpreted as an integer`. -/
def cIntFieldSet (v : PyNum) : Except PyError Int :=
  match v with
  | .int i => .ok i
  | .float _ _ => .error .typeError

/-- The descriptor tuple yielded per column by `Cursor.columns` (source
lines 543-551): `(name, ToPyType[native_type], None, max_size, precision,
scale, nullable, native_type)`. -/
structure Descriptor where
  name : String
  typeCat : Finset Int
  display_size : Option Int
  internal_size : Int
  precision : Int
  scale : Int
  null_ok : Int
  native_type : Int

/-- The body of `Cursor.columns` for one column (source lines 537-551):
halve precision and max_size for wide-character native types — via Python 3
true division, whose float result the ctypes fields reject — then yield the
descriptor paired with the raw native type. -/
def columnsStep (info : ColumnInfoRec) : Except PyError (Descriptor × Int) := do
  let precision ←
    if wideNative info.native_type then cIntFieldSet (pyTrueDiv info.precision 2)
    else Except.ok info.precision
  let max_size ←
    if wideNative info.native_type then cIntFieldSet (pyTrueDiv info.max_size 2)
    else Except.ok info.max_size
  match ToPyType info.native_type with
  | some cat =>
    .ok (⟨info.name, cat, none, max_size, precision, info.scale,
          info.nullable, info.native_type⟩, info.native_type)
  | none => .error .keyError

/-- What one iteration of the `executemany` loop observes from the native
layer: `ads_execute` returning falsy (`fail`), or success with the row count
reported by `ads_num_rows`/`ads_affected_rows` (`ok`). -/
inductive ExecStep
  | fail
  | ok (count : Int)

/-- The row-count update at source lines 582-586: a negative reported count
makes the aggregate -1; otherwise a still-nonnegative aggregate accumulates;
a -1 aggregate is left alone. -/
def rcStep (acc : Int) (c : Int) : Int :=
  if c < 0 then -1 else if 0 ≤ acc then acc + c else acc

/-- The `executemany` loop and return (source lines 562-591) after a
successful prepare: `rowcount` starts at 0; `parms` becomes bound on the
first iteration; a failed `ads_execute` raises the connection error, which
the bare `except` turns into `rowcount = -1` before re-raising; after the
loop, the `return` statement — outside the try block — reads `parms` and
raises NameError if the batch was empty, leaving `rowcount` untouched.
Result: final `rowcount` paired with the outcome. -/
def emGo : Int → Bool → List ExecStep → Int × Except PyError Unit
  | rc, bound, [] => (rc, if bound then .ok () else .error .nameError)
  | _, _, .fail :: _ => (-1, .error .operationalError)
  | rc, _, .ok c :: rest => emGo (rcStep rc c) true rest

/-- `Cursor.executemany` on a batch of native execution outcomes (prepare
assumed successful, as the claims it serves suppose). -/
def executemanyModel (steps : List ExecStep) : Int × Except PyError Unit :=
  emGo 0 false steps

/-- Final `rowcount` of a batch whose executions all succeed with the given
reported counts. -/
def rcAgg (cs : List Int) : Int :=
  (executemanyModel (cs.map ExecStep.ok)).1

/-- `Cursor.rows` (source lines 611-617) as the sequence it would yield:
with no `description` the generator raises InterfaceError at its first
advance; otherwise it yields the decoded rows the native layer produces. -/
def rowsGen (description : Bool) (native : List (List PyValue)) :
    Except PyError (List (List PyValue)) :=
  if description then .ok native else .error .interfaceError

/-- `Cursor.fetchmany` (source lines 620-623): `zip(range(size), rows())`.
For `size ≤ 0` the range iterator is exhausted first and the rows generator
is never advanced, so no InterfaceError can fire; otherwise up to `size`
rows are drawn from the generator. -/
def fetchmany (description : Bool) (native : List (List PyValue))
    (size : Int) : Except PyError (List (List PyValue)) :=
  if size ≤ 0 then .ok []
  else (rowsGen description native).map (fun l => l.take size.toNat)

/-- `Cursor.fetchone` (source lines 625-629): `fetchmany(size=1)`, first row
or None. -/
def fetchone (description : Bool) (native : List (List PyValue)) :
    Except PyError (Option (List PyValue)) :=
  (fetchmany description native 1).map (fun l => l.head?)

/-- `Cursor.fetchall` (source lines 631-633): `list(self.rows())`. -/
def fetchall (description : Bool) (native : List (List PyValue)) :
    Except PyError (List (List PyValue)) :=
  rowsGen description native

/-- The concrete wide-character column of claim C4: native type DT_NSTRING,
native precision 20, native max_size 40. -/
def wideColumnExample : ColumnInfoRec :=
  { name := "c", ctype := 0, native_type := DT_NSTRING, precision := 20,
    scale := 0, max_size := 40, nullable := 1 }

deriving instance DecidableEq for Except

/-! Helper lemmas about the byte-level codec and the executemany loop. -/

theorem rcStep_of_nonneg (a c : Int) (ha : 0 ≤ a) (hc : 0 ≤ c) :
    rcStep a c = a + c := by
  unfold rcStep
  rw [if_neg (by omega), if_pos ha]

theorem rcStep_of_neg (a c : Int) (hc : c < 0) : rcStep a c = -1 := by
  unfold rcStep
  rw [if_pos hc]

theorem toLE_length (w n : Nat) : (toLE w n).length = w := by
  induction w generalizing n with
  | zero => rfl
  | succ w ih => simp [toLE, ih]

theorem fromLE_toLE (w n : Nat) (h : n < 256 ^ w) : fromLE (toLE w n) = n := by
  induction w generalizing n with
  | zero =>
    simp only [pow_zero, Nat.lt_one_iff] at h
    simp [toLE, fromLE, h]
  | succ w ih =>
    have hdiv : n / 256 < 256 ^ w := by
      rw [Nat.div_lt_iff_lt_mul (by norm_num)]
      calc n < 256 ^ (w + 1) := h
        _ = 256 ^ w * 256 := by rw [pow_succ]
    simp only [toLE, fromLE, ih (n / 256) hdiv]
    omega

theorem emGo_fst_map_ok (cs : List Int) (rc : Int) (b : Bool) :
    (emGo rc b (cs.map ExecStep.ok)).1 = cs.foldl rcStep rc := by
  induction cs generalizing rc b with
  | nil => rfl
  | cons c cs ih => simp [emGo, List.foldl, ih]

theorem rcAgg_eq_foldl (cs : List Int) : rcAgg cs = cs.foldl rcStep 0 :=
  emGo_fst_map_ok cs 0 false

theorem foldl_rcStep_nonneg (cs : List Int) (a : Int)
    (hcs : ∀ x ∈ cs, 0 ≤ x) (ha : 0 ≤ a) : 0 ≤ cs.foldl rcStep a := by
  induction cs generalizing a with
  | nil => exact ha
  | cons c cs ih =>
    have hc : 0 ≤ c := hcs c (by simp)
    simp only [List.foldl]
    rw [rcStep_of_nonneg a c ha hc]
    exact ih (a + c) (fun x hx => hcs x (by simp [hx])) (by omega)

theorem foldl_rcStep_neg_absorb (cs : List Int) :
    cs.foldl rcStep (-1) = -1 := by
  induction cs with
  | nil => rfl
  | cons c cs ih =>
    have h : rcStep (-1) c = -1 := by
      unfold rcStep
      split
      · rfl
      · rw [if_neg (by omega)]
    simp only [List.foldl, h, ih]

/-! Claim theorems. -/

/-- C1: `valueof` of any data value whose null indicator is set returns the
null value, whatever the type tag and whatever bytes the buffer holds — the
null test is the first branch and no byte is read. -/
theorem c1_null_propagation (t : Int) (buf : Nat → Nat) (bsz len : Nat) :
    valueof ⟨t, buf, bsz, len, true⟩ = .ok .none := rfl

/-- C3: within one `executemany` batch the row count starts at 0,
accumulates nonnegative reported counts, becomes and permanently stays -1 as
soon as any execution reports a negative count, and in particular the batch
2, -1, 3 yields -1, not 4. -/
theorem c3_rowcount_aggregation :
    rcAgg [] = 0 ∧
    (∀ cs c, (∀ x ∈ cs, 0 ≤ x) → 0 ≤ c → rcAgg (cs ++ [c]) = rcAgg cs + c) ∧
    (∀ pre c post, c < 0 → rcAgg (pre ++ c :: post) = -1) ∧
    rcAgg [2, -1, 3] = -1 := by
  refine ⟨rfl, ?_, ?_, by decide⟩
  · intro cs c hcs hc
    rw [rcAgg_eq_foldl, rcAgg_eq_foldl, List.foldl_append]
    have h0 : 0 ≤ cs.foldl rcStep 0 := foldl_rcStep_nonneg cs 0 hcs le_rfl
    simp only [List.foldl]
    rw [rcStep_of_nonneg _ c h0 hc]
  · intro pre c post hc
    rw [rcAgg_eq_foldl, List.foldl_append]
    simp only [List.foldl]
    rw [rcStep_of_neg _ c hc, foldl_rcStep_neg_absorb]

/-- C3 witness: the batch 2, -1, 3 written as `pre ++ c :: post` with a
negative middle count aggregates to -1. -/
theorem c3_rowcount_aggregation_witness : rcAgg ([2] ++ (-1) :: [3]) = -1 :=
  c3_rowcount_aggregation.2.2.1 [2] (-1) [3] (by norm_num)

/-- C5: the STRING category compares equal to the native A_STRING and
A_NCHAR codes and unequal to every NUMBER member code; in general a category
equals exactly the native codes it contains and the categories with an
identical member set, and the comparison is symmetric (Python falls back to
the reflected `DBAPISet.__eq__` when an int is on the left). -/
theorem c5_category_equality :
    pyEq (.cat STRING) (.code A_STRING) = true ∧
    pyEq (.cat STRING) (.code A_NCHAR) = true ∧
    (∀ n, n ∈ NUMBER → pyEq (.cat STRING) (.code n) = false) ∧
    (∀ (c : Finset Int) (x : PyOperand),
      pyEq (.cat c) x = true ↔
        (∃ n, x = .code n ∧ n ∈ c) ∨ (∃ b, x = .cat b ∧ c = b)) ∧
    (∀ x y, pyEq x y = pyEq y x) := by
  refine ⟨by decide, by decide, ?_, ?_, ?_⟩
  · intro n hn
    fin_cases hn <;> decide
  · intro c x
    cases x with
    | code n => simp [pyEq, dbapiEq]
    | cat b => simp [pyEq, dbapiEq]
  · intro x y
    cases x with
    | code m =>
      cases y with
      | code n => simp [pyEq, decide_eq_decide, eq_comm]
      | cat a => rfl
    | cat a =>
      cases y with
      | code n => rfl
      | cat b => simp [pyEq, dbapiEq, decide_eq_decide, eq_comm]

/-- C5 witness: the STRING category compares unequal to the concrete NUMBER
member code A_DOUBLE = 3. -/
theorem c5_category_equality_witness : pyEq (.cat STRING) (.code 3) = false :=
  c5_category_equality.2.2.1 3 (by decide)

/-- C6 (code evaluation at the failing inputs): decoding the TIME strings
from the claim raises TypeError instead of producing a time value, because
`from datetime import datetime` shadows the datetime module, so
`datetime.time` is a method descriptor and `isinstance(s, datetime.time)`
raises before any parsing; the same failure surfaces through `valueof` on an
A_TIME-tagged buffer. -/
theorem c6_time_decode_type_error :
    ads_typecast_time "12:00:00 AM" = .error .typeError ∧
    ads_typecast_time "12:30:15.5 PM" = .error .typeError ∧
    valueof ⟨A_TIME, fun _ => 49, 16, 11, false⟩ = .error .typeError := by
  refine ⟨by decide, by decide, by decide⟩

/-- C10: `executemany` over an empty parameter-set sequence (after a
successful prepare) skips the execution loop, leaves `rowcount` at 0, and
its `return` statement — outside the try block — reads the never-assigned
`parms`, raising NameError rather than returning or raising a DB-API
error. -/
theorem c10_empty_batch_name_error :
    executemanyModel [] = (0, .error .nameError) := rfl

/-- C4 (code evaluation at the failing input): building the descriptor for a
wide-character column with native precision 20 and max_size 40 raises
TypeError instead of exposing precision 10 and max_size 20 — Python 3 true
division makes `info.precision / 2` the float 10.0, and the ctypes `c_short`
field assignment rejects a float. -/
theorem c4_wide_column_type_error :
    columnsStep wideColumnExample = .error .typeError := rfl

/-- C7 (code evaluation at the failing input): in `assign`'s text arm the
UTF-16/NCHAR branch is unreachable for every value — its `elif` guard
repeats the first branch's `isinstance(value, str)` — and binding the str
"abc" at the A_STRING tag raises TypeError, because the value reaches
`create_string_buffer` as a str and Python 3 only accepts bytes there. -/
theorem c7_nchar_branch_unreachable :
    (∀ v : PyValue, strPathBranch v ≠ 2) ∧
    assign DD_INPUT A_STRING 0 (.str "abc") = .error .typeError := by
  constructor
  · intro v
    by_cases h : isPyStr v = true <;> simp [strPathBranch, h]
  · decide

/-- C9 counterexample: with no result set (`description` unset), `fetchmany`
with size 0 returns an empty list instead of failing — `zip(range(0), ...)`
exhausts the range before ever advancing the rows generator, so the
generator's InterfaceError is never raised. -/
theorem c9_counterexample :
    fetchmany false [] 0 = .ok [] ∧
    fetchmany false [] 0 ≠ .error .interfaceError := by decide

/-- C9 (amended): on a cursor with no result set, `fetchone`, `fetchall`,
and `fetchmany` with a positive size all fail with InterfaceError, while
`fetchmany` with size ≤ 0 silently returns an empty list. -/
theorem c9_fetch_requires_result_set :
    (∀ native, fetchall false native = .error .interfaceError) ∧
    (∀ native, fetchone false native = .error .interfaceError) ∧
    (∀ native size, 0 < size →
      fetchmany false native size = .error .interfaceError) ∧
    (∀ native size, size ≤ 0 → fetchmany false native size = .ok []) := by
  refine ⟨fun native => rfl, fun native => rfl, ?_, ?_⟩
  · intro native size hsize
    unfold fetchmany
    rw [if_neg (by omega)]
    rfl
  · intro native size hsize
    unfold fetchmany
    rw [if_pos hsize]

/-- C9 witness: `fetchmany` of one row on a cursor with no result set fails
with InterfaceError. -/
theorem c9_fetch_requires_result_set_witness :
    fetchmany false [] 1 = .error .interfaceError :=
  c9_fetch_requires_result_set.2.2.1 [] 1 (by norm_num)

/-- C8 counterexample: decoding a non-null buffer with the uncovered tag 17
raises IndexError (`format[17]` is out of range for the 16-character format
string), not DataError. -/
theorem c8_counterexample :
    valueof ⟨17, fun _ => 0, 0, 0, false⟩ = .error .indexError ∧
    valueof ⟨17, fun _ => 0, 0, 0, false⟩ ≠ .error .dataError := by decide

/-- C8 (amended): for every non-null buffer whose tag is 0 or at least 17 —
the tags no static decode rule covers — `valueof` fails with IndexError
(tag 0 indexes the empty tuple `unpack('x', ...)` returns; tags ≥ 17 index
past the end of the format string), not with DataError. -/
theorem c8_unknown_tag_index_error (d : DataValue) (h0 : d.is_null = false)
    (h : d.type = 0 ∨ 17 ≤ d.type) : valueof d = .error .indexError := by
  obtain ⟨t, buf, bsz, len, inull⟩ := d
  simp only at h0 h
  subst h0
  rcases h with h | h
  · subst h
    simp [valueof, A_BINARY, A_STRING, A_NCHAR, A_DECIMAL, A_DATE, A_TIME,
          A_TIMESTAMP, formatChar, format, pyUnpack, pySlice, calcsizeChar,
          intWidth]
  · have e1 : t ≠ A_BINARY := by simp only [A_BINARY]; omega
    have e2 : t ≠ A_STRING := by simp only [A_STRING]; omega
    have e3 : t ≠ A_NCHAR := by simp only [A_NCHAR]; omega
    have e4 : t ≠ A_DECIMAL := by simp only [A_DECIMAL]; omega
    have e5 : t ≠ A_DATE := by simp only [A_DATE]; omega
    have e6 : t ≠ A_TIME := by simp only [A_TIME]; omega
    have e7 : t ≠ A_TIMESTAMP := by simp only [A_TIMESTAMP]; omega
    have hfc : formatChar t = none := by
      unfold formatChar
      rw [if_neg (by omega), if_neg (by omega)]
    simp [valueof, e1, e2, e3, e4, e5, e6, e7, hfc]

/-- C8 witness: a non-null buffer with the uncovered tag 0 decodes to
IndexError. -/
theorem c8_unknown_tag_index_error_witness :
    valueof ⟨0, fun _ => 7, 4, 4, false⟩ = .error .indexError :=
  c8_unknown_tag_index_error ⟨0, fun _ => 7, 4, 4, false⟩ rfl (Or.inl rfl)

theorem pySlice_buffer_bytes (l : List Nat) :
    pySlice (fun i => (l ++ [0]).getD i 0) l.length = l := by
  unfold pySlice
  apply List.ext_getElem
  · simp
  · intro i h1 h2
    simp only [List.getElem_map, List.getElem_range]
    rw [List.getD_append _ _ _ _ h2, List.getD_eq_getElem l 0 h2]

theorem pySlice_buffer_bytes_of_len (l : List Nat) (m : Nat)
    (hm : m = l.length) :
    pySlice (fun i => (l ++ [0]).getD i 0) m = l := by
  subst hm
  exact pySlice_buffer_bytes l

theorem unpack_pack_int (w : Nat) (s : Bool) (v : Int) (hw : 1 ≤ w)
    (h : packOk w s v = true) :
    unpackIntVal w s (fromLE (toLE w (v.emod (2 ^ (8 * w))).toNat)) = v := by
  have hpow : (256 : Nat) ^ w = 2 ^ (8 * w) := by
    rw [show (256 : Nat) = 2 ^ 8 by norm_num, ← pow_mul]
  have hM0 : (0 : Int) < 2 ^ (8 * w) := by positivity
  have hmod0 : 0 ≤ v.emod (2 ^ (8 * w)) := Int.emod_nonneg v (ne_of_gt hM0)
  have hmod1 : v.emod (2 ^ (8 * w)) < 2 ^ (8 * w) := Int.emod_lt_of_pos v hM0
  have hcastM : ((2 ^ (8 * w) : Nat) : Int) = 2 ^ (8 * w) := by push_cast; ring
  have hcastH : ((2 ^ (8 * w - 1) : Nat) : Int) = 2 ^ (8 * w - 1) := by
    push_cast; ring
  have hhalf : (2 : Int) ^ (8 * w - 1) + 2 ^ (8 * w - 1) = 2 ^ (8 * w) := by
    obtain ⟨k, hk⟩ : ∃ k, 8 * w = k + 1 := ⟨8 * w - 1, by omega⟩
    rw [hk]
    simp only [Nat.add_sub_cancel]
    rw [pow_succ]
    ring
  have hH0 : (0 : Int) ≤ 2 ^ (8 * w - 1) := by positivity
  have hlt : (v.emod (2 ^ (8 * w))).toNat < 256 ^ w := by
    rw [hpow]; omega
  rw [fromLE_toLE w _ hlt]
  cases s with
  | false =>
    simp only [packOk, Bool.false_eq_true, if_false, Bool.and_eq_true,
               decide_eq_true_eq] at h
    obtain ⟨h1, h2⟩ := h
    have hv : v.emod (2 ^ (8 * w)) = v := Int.emod_eq_of_lt h1 h2
    unfold unpackIntVal
    rw [if_neg (by simp)]
    omega
  | true =>
    simp only [packOk, if_true, Bool.and_eq_true, decide_eq_true_eq] at h
    obtain ⟨h1, h2⟩ := h
    unfold unpackIntVal
    rcases le_or_lt 0 v with hv0 | hv0
    · have hv : v.emod (2 ^ (8 * w)) = v := Int.emod_eq_of_lt hv0 (by omega)
      rw [if_neg (by simp only [true_and]; omega)]
      omega
    · have hv : v.emod (2 ^ (8 * w)) = v + 2 ^ (8 * w) := by
        have heq : (v + 2 ^ (8 * w) * 1).emod (2 ^ (8 * w)) =
            v.emod (2 ^ (8 * w)) :=
          Int.add_mul_emod_self_left v (2 ^ (8 * w)) 1
        calc v.emod (2 ^ (8 * w))
            = (v + 2 ^ (8 * w) * 1).emod (2 ^ (8 * w)) := heq.symm
          _ = v + 2 ^ (8 * w) * 1 := Int.emod_eq_of_lt (by omega) (by omega)
          _ = v + 2 ^ (8 * w) := by ring
      rw [if_pos (by simp only [true_and]; omega)]
      omega

theorem packOk_true_of (w : Nat) (v : Int) (h1 : -(2 ^ (8 * w - 1)) ≤ v)
    (h2 : v < 2 ^ (8 * w - 1)) : packOk w true v = true := by
  unfold packOk
  rw [if_pos rfl]
  simp only [Bool.and_eq_true, decide_eq_true_eq]
  exact ⟨h1, h2⟩

theorem packOk_false_of (w : Nat) (v : Int) (h1 : 0 ≤ v)
    (h2 : v < 2 ^ (8 * w)) : packOk w false v = true := by
  unfold packOk
  rw [if_neg (by simp)]
  simp only [Bool.and_eq_true, decide_eq_true_eq]
  exact ⟨h1, h2⟩

theorem assign_int_preset (t : Int) (c : Char) (w : Nat) (s : Bool) (v : Int)
    (ht0 : t ≠ A_INVALID_TYPE) (hfc : formatChar t = some c) (hx : c ≠ 'x')
    (hd : c ≠ 'd') (hiw : intWidth c = some (w, s)) (hr : packOk w s v = true) :
    assign DD_INPUT t 0 (.int v) =
      .ok ⟨t, false, toLE w (v.emod (2 ^ (8 * w))).toNat ++ [0],
           calcsizeChar c, calcsizeChar c⟩ := by
  unfold assign
  have hnull : decide (PyValue.int v = PyValue.none) = false := by simp
  simp only [hnull, Bool.false_eq_true, false_and, if_false, if_neg ht0, hfc]
  simp only [if_neg hx]
  unfold pyPack
  simp only [if_neg hd, hiw]
  unfold packIntBytes
  rw [if_pos hr]

theorem valueof_format_tag (t : Int) (c : Char) (buf : Nat → Nat)
    (bsz len : Nat)
    (e1 : t ≠ A_BINARY) (e2 : t ≠ A_STRING) (e3 : t ≠ A_NCHAR)
    (e4 : t ≠ A_DECIMAL) (e5 : t ≠ A_DATE) (e6 : t ≠ A_TIME)
    (e7 : t ≠ A_TIMESTAMP) (hfc : formatChar t = some c) :
    valueof ⟨t, buf, bsz, len, false⟩ =
      pyUnpack c (pySlice buf (calcsizeChar c)) := by
  unfold valueof
  simp only [if_neg (by simp : ¬(false = true))]
  rw [if_neg (by simp [e1, e2]), if_neg e2, if_neg e3, if_neg e4, if_neg e5,
      if_neg e6, if_neg e7, hfc]

theorem roundtrip_ok_step (tag : Int) (v : PyValue) (r : AssignResult)
    (h : assign DD_INPUT tag 0 v = .ok r) :
    roundtrip tag v = valueof (dataValueOfAssign r) := by
  unfold roundtrip
  rw [h]

theorem roundtrip_int_general (t : Int) (c : Char) (w : Nat) (s : Bool)
    (hfc : formatChar t = some c) (hiw : intWidth c = some (w, s))
    (hcs : calcsizeChar c = w) (hx : c ≠ 'x') (hd : c ≠ 'd')
    (ht0 : t ≠ A_INVALID_TYPE)
    (e1 : t ≠ A_BINARY) (e2 : t ≠ A_STRING) (e3 : t ≠ A_NCHAR)
    (e4 : t ≠ A_DECIMAL) (e5 : t ≠ A_DATE) (e6 : t ≠ A_TIME)
    (e7 : t ≠ A_TIMESTAMP)
    (hw : 1 ≤ w) (v : Int) (hr : packOk w s v = true) :
    roundtrip t (.int v) = .ok (.int v) := by
  rw [roundtrip_ok_step t (.int v) _
      (assign_int_preset t c w s v ht0 hfc hx hd hiw hr)]
  simp only [dataValueOfAssign]
  refine Eq.trans (valueof_format_tag t c _ (calcsizeChar c) (calcsizeChar c)
      e1 e2 e3 e4 e5 e6 e7 hfc) ?_
  rw [pySlice_buffer_bytes_of_len (toLE w (v.emod (2 ^ (8 * w))).toNat)
      (calcsizeChar c) (by rw [toLE_length]; exact hcs)]
  unfold pyUnpack
  rw [if_pos (show (toLE w (v.emod (2 ^ (8 * w))).toNat).length = calcsizeChar c
        by rw [toLE_length, hcs])]
  rw [if_neg hx, if_neg hd, hiw]
  show Except.ok (PyValue.int
      (unpackIntVal w s (fromLE (toLE w (v.emod (2 ^ (8 * w))).toNat)))) =
    Except.ok (PyValue.int v)
  rw [unpack_pack_int w s v hw hr]

theorem roundtrip_double (bits : Nat) (hb : bits < 2 ^ 64) :
    roundtrip A_DOUBLE (.float bits) = .ok (.float bits) := by
  have h1 : roundtrip A_DOUBLE (.float bits) =
      pyUnpack 'd' (pySlice (fun i => (toLE 8 bits ++ [0]).getD i 0) 8) := rfl
  have h2 : pySlice (fun i => (toLE 8 bits ++ [0]).getD i 0) 8 =
      toLE 8 bits :=
    pySlice_buffer_bytes_of_len (toLE 8 bits) 8 (by rw [toLE_length])
  rw [h1, h2]
  unfold pyUnpack
  rw [if_pos (show (toLE 8 bits).length = calcsizeChar 'd'
        by rw [toLE_length]; rfl)]
  rw [if_neg (by decide), if_pos rfl]
  rw [fromLE_toLE 8 bits
      (by rw [show (256 : Nat) ^ 8 = 2 ^ 64 by norm_num]; exact hb)]

/-- C2: for every fixed-width numeric tag (8/16/32/64-bit signed and
unsigned, and double) and every value representable at that tag's width and
signedness — boundary values included — encoding through `assign` and
decoding the resulting buffer through `valueof` (exactly the composition
`executemany` performs) reproduces the value: both sides use the identical
per-tag byte layout from the `format` table.  Doubles are identified with
their IEEE-754 bit patterns, which `pack`/`unpack` preserve bit for bit. -/
theorem c2_fixed_width_roundtrip :
    (∀ v : Int, -(2 ^ 63) ≤ v → v < 2 ^ 63 →
      roundtrip A_VAL64 (.int v) = .ok (.int v)) ∧
    (∀ v : Int, 0 ≤ v → v < 2 ^ 64 →
      roundtrip A_UVAL64 (.int v) = .ok (.int v)) ∧
    (∀ v : Int, -(2 ^ 31) ≤ v → v < 2 ^ 31 →
      roundtrip A_VAL32 (.int v) = .ok (.int v)) ∧
    (∀ v : Int, 0 ≤ v → v < 2 ^ 32 →
      roundtrip A_UVAL32 (.int v) = .ok (.int v)) ∧
    (∀ v : Int, -(2 ^ 15) ≤ v → v < 2 ^ 15 →
      roundtrip A_VAL16 (.int v) = .ok (.int v)) ∧
    (∀ v : Int, 0 ≤ v → v < 2 ^ 16 →
      roundtrip A_UVAL16 (.int v) = .ok (.int v)) ∧
    (∀ v : Int, -(2 ^ 7) ≤ v → v < 2 ^ 7 →
      roundtrip A_VAL8 (.int v) = .ok (.int v)) ∧
    (∀ v : Int, 0 ≤ v → v < 2 ^ 8 →
      roundtrip A_UVAL8 (.int v) = .ok (.int v)) ∧
    (∀ bits : Nat, bits < 2 ^ 64 →
      roundtrip A_DOUBLE (.float bits) = .ok (.float bits)) := by
  refine ⟨?_, ?_, ?_, ?_, ?_, ?_, ?_, ?_, roundtrip_double⟩
  · intro v h1 h2
    exact roundtrip_int_general A_VAL64 'q' 8 true (by decide) (by decide)
      (by decide) (by decide) (by decide) (by decide) (by decide) (by decide)
      (by decide) (by decide) (by decide) (by decide) (by decide)
      (by norm_num) v (packOk_true_of 8 v h1 h2)
  · intro v h1 h2
    exact roundtrip_int_general A_UVAL64 'Q' 8 false (by decide) (by decide)
      (by decide) (by decide) (by decide) (by decide) (by decide) (by decide)
      (by decide) (by decide) (by decide) (by decide) (by decide)
      (by norm_num) v (packOk_false_of 8 v h1 h2)
  · intro v h1 h2
    exact roundtrip_int_general A_VAL32 'i' 4 true (by decide) (by decide)
      (by decide) (by decide) (by decide) (by decide) (by decide) (by decide)
      (by decide) (by decide) (by decide) (by decide) (by decide)
      (by norm_num) v (packOk_true_of 4 v h1 h2)
  · intro v h1 h2
    exact roundtrip_int_general A_UVAL32 'I' 4 false (by decide) (by decide)
      (by decide) (by decide) (by decide) (by decide) (by decide) (by decide)
      (by decide) (by decide) (by decide) (by decide) (by decide)
      (by norm_num) v (packOk_false_of 4 v h1 h2)
  · intro v h1 h2
    exact roundtrip_int_general A_VAL16 'h' 2 true (by decide) (by decide)
      (by decide) (by decide) (by decide) (by decide) (by decide) (by decide)
      (by decide) (by decide) (by decide) (by decide) (by decide)
      (by norm_num) v (packOk_true_of 2 v h1 h2)
  · intro v h1 h2
    exact roundtrip_int_general A_UVAL16 'H' 2 false (by decide) (by decide)
      (by decide) (by decide) (by decide) (by decide) (by decide) (by decide)
      (by decide) (by decide) (by decide) (by decide) (by decide)
      (by norm_num) v (packOk_false_of 2 v h1 h2)
  · intro v h1 h2
    exact roundtrip_int_general A_VAL8 'b' 1 true (by decide) (by decide)
      (by decide) (by decide) (by decide) (by decide) (by decide) (by decide)
      (by decide) (by decide) (by decide) (by decide) (by decide)
      (by norm_num) v (packOk_true_of 1 v h1 h2)
  · intro v h1 h2
    exact roundtrip_int_general A_UVAL8 'B' 1 false (by decide) (by decide)
      (by decide) (by decide) (by decide) (by decide) (by decide) (by decide)
      (by decide) (by decide) (by decide) (by decide) (by decide)
      (by norm_num) v (packOk_false_of 1 v h1 h2)

/-- C2 witness: the round trip at representative boundary values — the
64-bit signed minimum, maximum and -1, the 64-bit unsigned maximum, the
8-bit zero, and an all-ones double bit pattern below 2^64. -/
theorem c2_fixed_width_roundtrip_witness :
    roundtrip A_VAL64 (.int (-(2 ^ 63))) = .ok (.int (-(2 ^ 63))) ∧
    roundtrip A_VAL64 (.int (2 ^ 63 - 1)) = .ok (.int (2 ^ 63 - 1)) ∧
    roundtrip A_VAL64 (.int (-1)) = .ok (.int (-1)) ∧
    roundtrip A_UVAL64 (.int (2 ^ 64 - 1)) = .ok (.int (2 ^ 64 - 1)) ∧
    roundtrip A_VAL8 (.int 0) = .ok (.int 0) ∧
    roundtrip A_DOUBLE (.float (2 ^ 64 - 1)) = .ok (.float (2 ^ 64 - 1)) :=
  ⟨c2_fixed_width_roundtrip.1 _ (by norm_num) (by norm_num),
   c2_fixed_width_roundtrip.1 _ (by norm_num) (by norm_num),
   c2_fixed_width_roundtrip.1 _ (by norm_num) (by norm_num),
   c2_fixed_width_roundtrip.2.1 _ (by norm_num) (by norm_num),
   c2_fixed_width_roundtrip.2.2.2.2.2.2.1 0 (by norm_num) (by norm_num),
   c2_fixed_width_roundtrip.2.2.2.2.2.2.2.2 _ (by norm_num)⟩


end Adsdb
